import Mathlib

/-!
Verification of the rcr-track face-tracking pipeline.

A shallow embedding of `src/apps/rcr/rcr-track.cpp` from the
`superviseddescent` repository, together with proofs of the spec's
claims about its geometry utility (`get_enclosing_bbox`), its per-frame
detect/track state machine, and its top-level error handling.

Landmark coordinates are modelled exactly, as rationals: the C++ code
computes the min/max coordinates in `double` and the geometric claims
are about the exact values of those computations.  The default `int`
instantiation of the bounding-box template, which truncates the computed
values toward zero, is modelled separately (`get_enclosing_bbox_int`).
-/

namespace RcrTrack

/-- A landmark collection: an ordered list of 2D points (x, y).
Models `rcr::LandmarkCollection<cv::Vec2f>` with exact coordinates. -/
abbrev Landmarks := List (ℚ × ℚ)

/-- An axis-aligned rectangle with exact (rational) components.
Models `cv::Rect_<T>` for an exact-arithmetic instantiation `T`. -/
structure RectQ where
  x : ℚ
  y : ℚ
  w : ℚ
  h : ℚ
deriving DecidableEq

/-- An axis-aligned rectangle with integer components.  Models
`cv::Rect` = `cv::Rect_<int>`, the type of detector candidate boxes and
of the default instantiation of `get_enclosing_bbox`. -/
structure RectI where
  x : ℤ
  y : ℤ
  w : ℤ
  h : ℤ
deriving DecidableEq

/-- C++ conversion from a real value to `int`: truncation toward zero
(floor for nonnegative values, ceiling for negative ones).  This is the
conversion applied to each `double` argument of the
`cv::Rect_<int>` constructor. -/
def cppIntCast (q : ℚ) : ℤ :=
  if 0 ≤ q then ⌊q⌋ else ⌈q⌉

/-- Model of `cv::minMaxLoc` restricted to what the app uses: the
minimum and the maximum of the entries of a (row) matrix.  OpenCV
raises an error when the input matrix is empty, modelled as `none`. -/
def minMaxLoc (l : List ℚ) : Option (ℚ × ℚ) :=
  match l with
  | [] => none
  | v :: vs => some (vs.foldl min v, vs.foldl max v)

/-- Model of `get_enclosing_bbox` (rcr-track.cpp, lines 47-55) with an
exact-arithmetic rectangle type: the landmark row vector holds the
x-coordinates in its first `cols / 2` columns and the y-coordinates in
the rest; the result is `(min_x, min_y, max_x - min_x, max_y - min_y)`.
The failure of `cv::minMaxLoc` on an empty column range propagates. -/
def get_enclosing_bbox (landmarks : List ℚ) : Option RectQ :=
  match minMaxLoc (landmarks.take (landmarks.length / 2)),
        minMaxLoc (landmarks.drop (landmarks.length / 2)) with
  | some (min_x_val, max_x_val), some (min_y_val, max_y_val) =>
      some ⟨min_x_val, min_y_val, max_x_val - min_x_val, max_y_val - min_y_val⟩
  | _, _ => none

/-- The default instantiation `get_enclosing_bbox<int>`: the same
computation, but each `double` component is converted to `int` by
truncation toward zero when the `cv::Rect_<int>` is constructed. -/
def get_enclosing_bbox_int (landmarks : List ℚ) : Option RectI :=
  (get_enclosing_bbox landmarks).map
    (fun r => ⟨cppIntCast r.x, cppIntCast r.y, cppIntCast r.w, cppIntCast r.h⟩)

/-- Lay a landmark collection out as the row vector `get_enclosing_bbox`
expects: all x-coordinates first, then all y-coordinates. -/
def toRow (pts : Landmarks) : List ℚ :=
  pts.map Prod.fst ++ pts.map Prod.snd

/-- Modelled from the spec: `scaleFactor(subject, reference)` of the
Geometry Utility (spec 4.1).  The corresponding repository code
(`rcr::alignMean` in `rcr/model.hpp`, reached only from the
commented-out tracking branch) is not under `src/`.  Computes the
enclosing bounding box of both collections and returns
`(subject.width / reference.width, subject.height / reference.height)`,
failing (`DegenerateGeometry`) when the reference box has zero width or
height. -/
def scaleFactor (subject reference : Landmarks) : Option (ℚ × ℚ) :=
  match get_enclosing_bbox (toRow subject), get_enclosing_bbox (toRow reference) with
  | some sb, some rb =>
      if rb.w = 0 ∨ rb.h = 0 then none
      else some (sb.w / rb.w, sb.h / rb.h)
  | _, _ => none

/-! ## Frames and the per-frame pipeline -/

/-- A frame.  A captured frame is abstract (identified by an index); the
in-place drawing calls `cv::rectangle` and `rcr::draw_landmarks`
produce observably different frame values, recorded structurally. -/
inductive Frame where
  | captured (id : ℕ)
  | withRect (f : Frame) (r : RectI)
  | withLandmarks (f : Frame) (lms : Landmarks)
deriving DecidableEq

/-- Observable events of one loop iteration, in program order: the
face-detector call, the in-place drawing calls, the landmark-model
cold-start call (recording the frame argument it receives), and the
display call. -/
inductive Event where
  | detectMultiScale (f : Frame)
  | rectangle (r : RectI)
  | detect (f : Frame) (r : RectI)
  | draw_landmarks (lms : Landmarks)
  | imshow (f : Frame)
deriving DecidableEq

/-- The mutable per-iteration state of the main loop (rcr-track.cpp,
lines 133-134). -/
structure TrackState where
  have_face : Bool
  current_landmarks : Landmarks
deriving DecidableEq

/-- The result of processing one frame: the updated state, the frame
value handed to `cv::imshow`, and the trace of observable events. -/
structure FrameResult where
  state : TrackState
  shown : Frame
  events : List Event
deriving DecidableEq

/-- One iteration of the main loop (rcr-track.cpp, lines 136-181),
parametrised by the external collaborators: `det` models
`face_cascade.detectMultiScale` (list of candidate boxes) and `mdl`
models `rcr_model.detect` (cold-start landmark detection, receiving the
frame value current at the call site).  When `have_face` is false the
detector runs; on zero candidates the raw frame is shown and the loop
continues; otherwise the first candidate box is drawn onto the frame in
place, the landmark model runs on that drawn frame with that box, the
landmarks are drawn, and `have_face` is left unchanged (the assignment
`have_face = true` is commented out, line 164).  When `have_face` is
true the branch body is entirely commented out (lines 168-177) and the
frame is shown unchanged. -/
def processFrame (det : Frame → List RectI) (mdl : Frame → RectI → Landmarks)
    (s : TrackState) (image : Frame) : FrameResult :=
  if s.have_face = false then
    match det image with
    | [] =>
        { state := s, shown := image
          events := [Event.detectMultiScale image, Event.imshow image] }
    | r :: _ =>
        let image1 := Frame.withRect image r
        let lms := mdl image1 r
        let image2 := Frame.withLandmarks image1 lms
        { state := { have_face := s.have_face, current_landmarks := lms }
          shown := image2
          events := [Event.detectMultiScale image, Event.rectangle r,
                     Event.detect image1 r, Event.draw_landmarks lms,
                     Event.imshow image2] }
  else
    { state := s, shown := image, events := [Event.imshow image] }

/-- Run the main loop over a finite sequence of captured frames,
threading the track state and collecting the shown frames and the event
trace. -/
def runFrames (det : Frame → List RectI) (mdl : Frame → RectI → Landmarks)
    (s : TrackState) : List Frame → TrackState × List Frame × List Event
  | [] => (s, [], [])
  | f :: fs =>
      let r := processFrame det mdl s f
      let rest := runFrames det mdl r.state fs
      (rest.1, r.shown :: rest.2.1, r.events ++ rest.2.2)

/-- The initial state of the loop: `have_face = false`, empty landmark
collection (rcr-track.cpp, lines 133-134). -/
def initState : TrackState := { have_face := false, current_landmarks := [] }

/-! ## Top-level control flow of `main` -/

/-- Outcome of the command-line parsing block (rcr-track.cpp,
lines 70-95): `--help` requested, successful parse, or a
`boost::program_options` error carrying its message. -/
inductive ParseOutcome where
  | help
  | ok
  | perror (msg : String)
deriving DecidableEq

/-- The environment `main` runs in: the parse outcome and whether each
of the three setup steps (RCR model load, face-detector load, capture
open) succeeds. -/
structure MainEnv where
  parse : ParseOutcome
  modelLoadOk : Bool
  cascadeLoadOk : Bool
  capOpened : Bool
deriving DecidableEq

def EXIT_SUCCESS : ℤ := 0

def EXIT_FAILURE : ℤ := 1

/-- The exit code and printed diagnostics of `main` (rcr-track.cpp,
lines 67-184): `--help` and a command-line parse error both return
`EXIT_SUCCESS` (the parse error after printing the message, lines
91-95); a model-load, detector-load or capture-open failure returns
`EXIT_FAILURE`; otherwise the frame loop runs and `main` returns
`EXIT_SUCCESS` (line 183). -/
def mainResult (env : MainEnv) : ℤ × List String :=
  match env.parse with
  | ParseOutcome.help => (EXIT_SUCCESS, ["Usage: rcr-track [options]"])
  | ParseOutcome.perror msg =>
      (EXIT_SUCCESS,
       ["Error while parsing command-line arguments: " ++ msg,
        "Use --help to display a list of options."])
  | ParseOutcome.ok =>
      if env.modelLoadOk = false then
        (EXIT_FAILURE, ["Error reading the RCR model"])
      else if env.cascadeLoadOk = false then
        (EXIT_FAILURE, ["Error loading the face detector"])
      else if env.capOpened = false then
        (EXIT_FAILURE, ["Couldn't open the given file or camera 0."])
      else (EXIT_SUCCESS, [])

/-! ## Containment predicates and concrete instances -/

/-- The point `p` lies inside the exact rectangle `r` (the spec's
containment property `x <= p.x <= x+width`, `y <= p.y <= y+height`). -/
def rectQContains (r : RectQ) (p : ℚ × ℚ) : Prop :=
  r.x ≤ p.1 ∧ p.1 ≤ r.x + r.w ∧ r.y ≤ p.2 ∧ p.2 ≤ r.y + r.h

instance (r : RectQ) (p : ℚ × ℚ) : Decidable (rectQContains r p) := by
  unfold rectQContains
  infer_instance

/-- The (exact-valued) point `p` lies inside the integer rectangle `r`. -/
def rectIContainsQ (r : RectI) (p : ℚ × ℚ) : Prop :=
  (r.x : ℚ) ≤ p.1 ∧ p.1 ≤ (r.x : ℚ) + (r.w : ℚ) ∧
  (r.y : ℚ) ≤ p.2 ∧ p.2 ≤ (r.y : ℚ) + (r.h : ℚ)

instance (r : RectI) (p : ℚ × ℚ) : Decidable (rectIContainsQ r p) := by
  unfold rectIContainsQ
  infer_instance

/-- Does an event invoke the landmark model or draw an overlay? -/
def Event.invokesModelOrDraws : Event → Bool
  | Event.detect _ _ => true
  | Event.rectangle _ => true
  | Event.draw_landmarks _ => true
  | _ => false

/-- A detector that finds no face in any frame. -/
def detNone : Frame → List RectI := fun _ => []

/-- A detector that always reports the single candidate box
`{x:100, y:50, w:80, h:80}`. -/
def detOne : Frame → List RectI := fun _ => [⟨100, 50, 80, 80⟩]

/-- A landmark model returning a fixed collection. -/
def mdlConst : Frame → RectI → Landmarks := fun _ _ => [(1, 1), (3, 4)]

/-! ## Helper lemmas: folded minima and maxima of a list -/

lemma foldl_min_le (vs : List ℚ) : ∀ (v a : ℚ), a ∈ v :: vs → vs.foldl min v ≤ a := by
  induction vs with
  | nil =>
    intro v a ha
    rw [List.mem_singleton] at ha
    simp [ha]
  | cons w ws ih =>
    intro v a ha
    rw [List.foldl_cons]
    rcases List.mem_cons.1 ha with rfl | hmem
    · exact le_trans (ih (min a w) (min a w) (List.mem_cons_self _ _)) (min_le_left a w)
    · rcases List.mem_cons.1 hmem with rfl | h2
      · exact le_trans (ih (min v a) (min v a) (List.mem_cons_self _ _)) (min_le_right v a)
      · exact ih (min v w) a (List.mem_cons_of_mem _ h2)

lemma le_foldl_max (vs : List ℚ) : ∀ (v a : ℚ), a ∈ v :: vs → a ≤ vs.foldl max v := by
  induction vs with
  | nil =>
    intro v a ha
    rw [List.mem_singleton] at ha
    simp [ha]
  | cons w ws ih =>
    intro v a ha
    rw [List.foldl_cons]
    rcases List.mem_cons.1 ha with rfl | hmem
    · exact le_trans (le_max_left a w) (ih (max a w) (max a w) (List.mem_cons_self _ _))
    · rcases List.mem_cons.1 hmem with rfl | h2
      · exact le_trans (le_max_right v a) (ih (max v a) (max v a) (List.mem_cons_self _ _))
      · exact ih (max v w) a (List.mem_cons_of_mem _ h2)

lemma foldl_min_mem (vs : List ℚ) (v : ℚ) : vs.foldl min v ∈ v :: vs := by
  induction vs generalizing v with
  | nil => simp
  | cons w ws ih =>
    rw [List.foldl_cons]
    rcases List.mem_cons.1 (ih (min v w)) with heq | hmem
    · rcases min_choice v w with h1 | h1
      · rw [heq, h1]; exact List.mem_cons_self _ _
      · rw [heq, h1]; exact List.mem_cons_of_mem _ (List.mem_cons_self _ _)
    · exact List.mem_cons_of_mem _ (List.mem_cons_of_mem _ hmem)

lemma foldl_max_mem (vs : List ℚ) (v : ℚ) : vs.foldl max v ∈ v :: vs := by
  induction vs generalizing v with
  | nil => simp
  | cons w ws ih =>
    rw [List.foldl_cons]
    rcases List.mem_cons.1 (ih (max v w)) with heq | hmem
    · rcases max_choice v w with h1 | h1
      · rw [heq, h1]; exact List.mem_cons_self _ _
      · rw [heq, h1]; exact List.mem_cons_of_mem _ (List.mem_cons_self _ _)
    · exact List.mem_cons_of_mem _ (List.mem_cons_of_mem _ hmem)

/-! ## Helper lemmas: the bounding box of a laid-out landmark row -/

lemma toRow_take (pts : Landmarks) :
    (toRow pts).take ((toRow pts).length / 2) = pts.map Prod.fst := by
  have hlen : (toRow pts).length / 2 = (pts.map Prod.fst).length := by
    simp [toRow]; omega
  rw [hlen, toRow, List.take_left]

lemma toRow_drop (pts : Landmarks) :
    (toRow pts).drop ((toRow pts).length / 2) = pts.map Prod.snd := by
  have hlen : (toRow pts).length / 2 = (pts.map Prod.fst).length := by
    simp [toRow]; omega
  rw [hlen, toRow, List.drop_left]

lemma get_enclosing_bbox_toRow_cons (p : ℚ × ℚ) (rest : Landmarks) :
    get_enclosing_bbox (toRow (p :: rest)) =
      some ⟨(rest.map Prod.fst).foldl min p.1,
            (rest.map Prod.snd).foldl min p.2,
            (rest.map Prod.fst).foldl max p.1 - (rest.map Prod.fst).foldl min p.1,
            (rest.map Prod.snd).foldl max p.2 - (rest.map Prod.snd).foldl min p.2⟩ := by
  unfold get_enclosing_bbox
  rw [toRow_take (p :: rest), toRow_drop (p :: rest)]
  simp [minMaxLoc]

/-- C1: for every non-empty landmark collection, `get_enclosing_bbox`
(exact instantiation) returns the box with corner `(min x, min y)` and
extents `(max x - min x, max y - min y)`, which contains every point,
with equality attained on each of the four sides. -/
theorem get_enclosing_bbox_contains_tight (pts : Landmarks) (h : pts ≠ []) :
    ∃ r, get_enclosing_bbox (toRow pts) = some r ∧
      (∀ p ∈ pts, r.x ≤ p.1 ∧ p.1 ≤ r.x + r.w ∧ r.y ≤ p.2 ∧ p.2 ≤ r.y + r.h) ∧
      (∃ p ∈ pts, p.1 = r.x) ∧ (∃ p ∈ pts, p.1 = r.x + r.w) ∧
      (∃ p ∈ pts, p.2 = r.y) ∧ (∃ p ∈ pts, p.2 = r.y + r.h) := by
  obtain ⟨q, rest, rfl⟩ := List.exists_cons_of_ne_nil h
  refine ⟨_, get_enclosing_bbox_toRow_cons q rest, ?_, ?_, ?_, ?_, ?_⟩
  · intro p hp
    have hx : p.1 ∈ q.1 :: rest.map Prod.fst := by
      rcases List.mem_cons.1 hp with rfl | hmem
      · exact List.mem_cons_self _ _
      · exact List.mem_cons_of_mem _ (List.mem_map_of_mem Prod.fst hmem)
    have hy : p.2 ∈ q.2 :: rest.map Prod.snd := by
      rcases List.mem_cons.1 hp with rfl | hmem
      · exact List.mem_cons_self _ _
      · exact List.mem_cons_of_mem _ (List.mem_map_of_mem Prod.snd hmem)
    refine ⟨foldl_min_le _ _ _ hx, ?_, foldl_min_le _ _ _ hy, ?_⟩
    · rw [add_sub_cancel]
      exact le_foldl_max _ _ _ hx
    · rw [add_sub_cancel]
      exact le_foldl_max _ _ _ hy
  · have hmem := foldl_min_mem (rest.map Prod.fst) q.1
    rw [show q.1 :: rest.map Prod.fst = (q :: rest).map Prod.fst from rfl] at hmem
    obtain ⟨p, hp, hpe⟩ := List.mem_map.1 hmem
    exact ⟨p, hp, hpe⟩
  · have hmem := foldl_max_mem (rest.map Prod.fst) q.1
    rw [show q.1 :: rest.map Prod.fst = (q :: rest).map Prod.fst from rfl] at hmem
    obtain ⟨p, hp, hpe⟩ := List.mem_map.1 hmem
    exact ⟨p, hp, by rw [add_sub_cancel]; exact hpe⟩
  · have hmem := foldl_min_mem (rest.map Prod.snd) q.2
    rw [show q.2 :: rest.map Prod.snd = (q :: rest).map Prod.snd from rfl] at hmem
    obtain ⟨p, hp, hpe⟩ := List.mem_map.1 hmem
    exact ⟨p, hp, hpe⟩
  · have hmem := foldl_max_mem (rest.map Prod.snd) q.2
    rw [show q.2 :: rest.map Prod.snd = (q :: rest).map Prod.snd from rfl] at hmem
    obtain ⟨p, hp, hpe⟩ := List.mem_map.1 hmem
    exact ⟨p, hp, by rw [add_sub_cancel]; exact hpe⟩

/-- Witness for C1 at the concrete collection `[(1, 2), (3, 5)]`. -/
theorem get_enclosing_bbox_contains_tight_witness :
    ([((1 : ℚ), (2 : ℚ)), (3, 5)] : Landmarks) ≠ [] ∧
    (∃ r, get_enclosing_bbox (toRow [((1 : ℚ), (2 : ℚ)), (3, 5)]) = some r ∧
      (∀ p ∈ ([((1 : ℚ), (2 : ℚ)), (3, 5)] : Landmarks),
        r.x ≤ p.1 ∧ p.1 ≤ r.x + r.w ∧ r.y ≤ p.2 ∧ p.2 ≤ r.y + r.h) ∧
      (∃ p ∈ ([((1 : ℚ), (2 : ℚ)), (3, 5)] : Landmarks), p.1 = r.x) ∧
      (∃ p ∈ ([((1 : ℚ), (2 : ℚ)), (3, 5)] : Landmarks), p.1 = r.x + r.w) ∧
      (∃ p ∈ ([((1 : ℚ), (2 : ℚ)), (3, 5)] : Landmarks), p.2 = r.y) ∧
      (∃ p ∈ ([((1 : ℚ), (2 : ℚ)), (3, 5)] : Landmarks), p.2 = r.y + r.h)) :=
  ⟨List.cons_ne_nil _ _,
   get_enclosing_bbox_contains_tight [((1 : ℚ), (2 : ℚ)), (3, 5)] (List.cons_ne_nil _ _)⟩

/-- C6: `get_enclosing_bbox` fails (propagating the `cv::minMaxLoc`
error, returning no value) exactly on the empty landmark collection. -/
theorem get_enclosing_bbox_empty_fails (pts : Landmarks) :
    get_enclosing_bbox (toRow pts) = none ↔ pts = [] := by
  cases pts with
  | nil => simp [get_enclosing_bbox, toRow, minMaxLoc]
  | cons p rest =>
    rw [get_enclosing_bbox_toRow_cons]
    simp

/-- Witness for C6: the empty collection indeed yields no box. -/
theorem get_enclosing_bbox_empty_fails_witness :
    get_enclosing_bbox (toRow ([] : Landmarks)) = none :=
  (get_enclosing_bbox_empty_fails []).mpr rfl

/-! ## Helper lemmas: the per-frame state machine -/

/-- The flag `have_face` is never assigned inside the loop body: the
sole assignment `have_face = true` is commented out (line 164). -/
lemma processFrame_preserves_have_face (det : Frame → List RectI)
    (mdl : Frame → RectI → Landmarks) (s : TrackState) (image : Frame) :
    (processFrame det mdl s image).state.have_face = s.have_face := by
  unfold processFrame
  cases hs : s.have_face
  · rw [if_pos rfl]
    cases det image
    · exact hs
    · rfl
  · rw [if_neg (by simp)]
    exact hs

lemma runFrames_have_face (det : Frame → List RectI)
    (mdl : Frame → RectI → Landmarks) (frames : List Frame) :
    ∀ s : TrackState, ((runFrames det mdl s frames).1).have_face = s.have_face := by
  induction frames with
  | nil => intro s; rfl
  | cons f fs ih =>
    intro s
    show ((runFrames det mdl (processFrame det mdl s f).state fs).1).have_face = _
    rw [ih (processFrame det mdl s f).state, processFrame_preserves_have_face]

/-- Behaviour of one iteration when no track exists and the detector
returns no candidate (rcr-track.cpp, lines 151-155). -/
lemma processFrame_no_candidates (det : Frame → List RectI)
    (mdl : Frame → RectI → Landmarks) (s : TrackState) (image : Frame)
    (hface : s.have_face = false) (hdet : det image = []) :
    processFrame det mdl s image =
      { state := s, shown := image
        events := [Event.detectMultiScale image, Event.imshow image] } := by
  unfold processFrame
  rw [hface, hdet]
  rfl

/-- Behaviour of one iteration when no track exists and the detector
returns at least one candidate (rcr-track.cpp, lines 156-166). -/
lemma processFrame_cold (det : Frame → List RectI)
    (mdl : Frame → RectI → Landmarks) (s : TrackState) (image : Frame)
    (r : RectI) (rest : List RectI)
    (hface : s.have_face = false) (hdet : det image = r :: rest) :
    processFrame det mdl s image =
      { state := { have_face := s.have_face
                   current_landmarks := mdl (Frame.withRect image r) r }
        shown := Frame.withLandmarks (Frame.withRect image r)
                   (mdl (Frame.withRect image r) r)
        events := [Event.detectMultiScale image, Event.rectangle r,
                   Event.detect (Frame.withRect image r) r,
                   Event.draw_landmarks (mdl (Frame.withRect image r) r),
                   Event.imshow (Frame.withLandmarks (Frame.withRect image r)
                     (mdl (Frame.withRect image r) r))] } := by
  unfold processFrame
  rw [hface, hdet]
  rfl

/-- Behaviour of one iteration when `have_face` is true: the whole
branch body is commented out (rcr-track.cpp, lines 168-177), so the
state is unchanged and the frame is shown as-is. -/
lemma processFrame_tracking (det : Frame → List RectI)
    (mdl : Frame → RectI → Landmarks) (s : TrackState) (image : Frame)
    (hface : s.have_face = true) :
    processFrame det mdl s image =
      { state := s, shown := image, events := [Event.imshow image] } := by
  unfold processFrame
  rw [hface]
  rfl

/-- In-place drawing produces an observably different frame value. -/
lemma withRect_ne : ∀ (f : Frame) (r : RectI), Frame.withRect f r ≠ f := by
  intro f
  induction f with
  | captured i => intro r h; exact Frame.noConfusion h
  | withRect g r2 ih =>
    intro r h
    injection h with h1 h2
    exact ih r2 h1
  | withLandmarks g lms ih =>
    intro r h
    exact Frame.noConfusion h

lemma runFrames_all_empty (det : Frame → List RectI)
    (mdl : Frame → RectI → Landmarks) (frames : List Frame) :
    ∀ s : TrackState, s.have_face = false → (∀ f ∈ frames, det f = []) →
      runFrames det mdl s frames =
        (s, frames,
         frames.flatMap fun f => [Event.detectMultiScale f, Event.imshow f]) := by
  induction frames with
  | nil => intro s _ _; rfl
  | cons f fs ih =>
    intro s hs hdet
    have hstep := processFrame_no_candidates det mdl s f hs
      (hdet f (List.mem_cons_self _ _))
    show (let r := processFrame det mdl s f
          let rest := runFrames det mdl r.state fs
          (rest.1, r.shown :: rest.2.1, r.events ++ rest.2.2)) = _
    rw [hstep]
    have hrec := ih s hs (fun g hg => hdet g (List.mem_cons_of_mem _ hg))
    simp only [hrec, List.flatMap_cons]

/-- C2: `have_face` is never changed by any loop iteration (the
assignment is commented out), so starting from the initial state it is
false after every frame sequence — including sequences on which the
detector reports faces and cold-start detection succeeds — and the
`TRACKING` branch, guarded by `have_face`, is never entered. -/
theorem have_face_stays_false :
    (∀ (det : Frame → List RectI) (mdl : Frame → RectI → Landmarks)
       (s : TrackState) (image : Frame),
       (processFrame det mdl s image).state.have_face = s.have_face) ∧
    (∀ (det : Frame → List RectI) (mdl : Frame → RectI → Landmarks)
       (frames : List Frame),
       ((runFrames det mdl initState frames).1).have_face = false) :=
  ⟨processFrame_preserves_have_face,
   fun det mdl frames => runFrames_have_face det mdl frames initState⟩

/-- C4: starting in `NO_TRACK`, if the detector reports no candidate on
any frame, the state machine stays in the initial state after every
frame, every frame is emitted raw, and no event of the trace invokes
the landmark model or draws an overlay. -/
theorem no_detection_no_overlay (det : Frame → List RectI)
    (mdl : Frame → RectI → Landmarks) (frames : List Frame)
    (h : ∀ f ∈ frames, det f = []) :
    runFrames det mdl initState frames =
      (initState, frames,
       frames.flatMap fun f => [Event.detectMultiScale f, Event.imshow f]) ∧
    ∀ e ∈ (runFrames det mdl initState frames).2.2,
      e.invokesModelOrDraws = false := by
  have heq := runFrames_all_empty det mdl frames initState rfl h
  refine ⟨heq, ?_⟩
  rw [heq]
  intro e he
  simp only [List.mem_flatMap] at he
  obtain ⟨f, _, he2⟩ := he
  simp only [List.mem_cons, List.mem_singleton] at he2
  rcases he2 with rfl | rfl | h3
  · rfl
  · rfl
  · exact absurd h3 (List.not_mem_nil e)

/-- Witness for C4: two frames, a detector that never fires. -/
theorem no_detection_no_overlay_witness :
    (runFrames detNone mdlConst initState [Frame.captured 0, Frame.captured 1] =
      (initState, [Frame.captured 0, Frame.captured 1],
       [Frame.captured 0, Frame.captured 1].flatMap
         fun f => [Event.detectMultiScale f, Event.imshow f])) ∧
    ∀ e ∈ (runFrames detNone mdlConst initState
             [Frame.captured 0, Frame.captured 1]).2.2,
      e.invokesModelOrDraws = false :=
  no_detection_no_overlay detNone mdlConst [Frame.captured 0, Frame.captured 1]
    (fun _ _ => rfl)

/-- C5: in `NO_TRACK`, when the detector reports at least one candidate,
the first candidate `r` is the one drawn and passed as the cold-start
initial estimate, the resulting landmarks are drawn, and
`current_landmarks` is set to the result; the remaining candidates are
ignored. -/
theorem first_candidate_cold_start (det : Frame → List RectI)
    (mdl : Frame → RectI → Landmarks) (s : TrackState) (image : Frame)
    (r : RectI) (rest : List RectI)
    (hface : s.have_face = false) (hdet : det image = r :: rest) :
    processFrame det mdl s image =
      { state := { have_face := s.have_face
                   current_landmarks := mdl (Frame.withRect image r) r }
        shown := Frame.withLandmarks (Frame.withRect image r)
                   (mdl (Frame.withRect image r) r)
        events := [Event.detectMultiScale image, Event.rectangle r,
                   Event.detect (Frame.withRect image r) r,
                   Event.draw_landmarks (mdl (Frame.withRect image r) r),
                   Event.imshow (Frame.withLandmarks (Frame.withRect image r)
                     (mdl (Frame.withRect image r) r))] } :=
  processFrame_cold det mdl s image r rest hface hdet

/-- Witness for C5 at the concrete box `{x:100, y:50, w:80, h:80}`. -/
theorem first_candidate_cold_start_witness :
    processFrame detOne mdlConst initState (Frame.captured 0) =
      { state := { have_face := initState.have_face
                   current_landmarks :=
                     mdlConst (Frame.withRect (Frame.captured 0) ⟨100, 50, 80, 80⟩)
                       ⟨100, 50, 80, 80⟩ }
        shown := Frame.withLandmarks
                   (Frame.withRect (Frame.captured 0) ⟨100, 50, 80, 80⟩)
                   (mdlConst (Frame.withRect (Frame.captured 0) ⟨100, 50, 80, 80⟩)
                     ⟨100, 50, 80, 80⟩)
        events := [Event.detectMultiScale (Frame.captured 0),
                   Event.rectangle ⟨100, 50, 80, 80⟩,
                   Event.detect (Frame.withRect (Frame.captured 0) ⟨100, 50, 80, 80⟩)
                     ⟨100, 50, 80, 80⟩,
                   Event.draw_landmarks
                     (mdlConst (Frame.withRect (Frame.captured 0) ⟨100, 50, 80, 80⟩)
                       ⟨100, 50, 80, 80⟩),
                   Event.imshow (Frame.withLandmarks
                     (Frame.withRect (Frame.captured 0) ⟨100, 50, 80, 80⟩)
                     (mdlConst (Frame.withRect (Frame.captured 0) ⟨100, 50, 80, 80⟩)
                       ⟨100, 50, 80, 80⟩))] } :=
  first_candidate_cold_start detOne mdlConst initState (Frame.captured 0)
    ⟨100, 50, 80, 80⟩ [] rfl rfl

/-- C3 counterexample: in a state with `have_face = true` and concrete
previous landmarks, the iteration invokes no regression at all — the
event trace is exactly `[imshow]`, with no model call and no drawing —
so no warm-start initial shape is ever passed to a regression. -/
theorem tracking_no_regression_counterexample :
    processFrame detOne mdlConst
        { have_face := true, current_landmarks := [((1 : ℚ), (1 : ℚ)), (3, 4)] }
        (Frame.captured 0) =
      { state := { have_face := true
                   current_landmarks := [((1 : ℚ), (1 : ℚ)), (3, 4)] }
        shown := Frame.captured 0
        events := [Event.imshow (Frame.captured 0)] } ∧
    ((processFrame detOne mdlConst
        { have_face := true, current_landmarks := [((1 : ℚ), (1 : ℚ)), (3, 4)] }
        (Frame.captured 0)).events).all
      (fun e => !e.invokesModelOrDraws) = true :=
  ⟨rfl, rfl⟩

/-- C3 (amended): in the `TRACKING` state the iteration is a no-op —
the branch body is entirely commented out, so the state is unchanged,
nothing is drawn, no detector or model call happens, and the raw frame
is shown. -/
theorem tracking_branch_is_noop (det : Frame → List RectI)
    (mdl : Frame → RectI → Landmarks) (s : TrackState) (image : Frame)
    (hface : s.have_face = true) :
    processFrame det mdl s image =
      { state := s, shown := image, events := [Event.imshow image] } :=
  processFrame_tracking det mdl s image hface

/-- Witness for the amended C3. -/
theorem tracking_branch_is_noop_witness :
    processFrame detOne mdlConst
        { have_face := true, current_landmarks := [((1 : ℚ), (1 : ℚ)), (3, 4)] }
        (Frame.captured 1) =
      { state := { have_face := true
                   current_landmarks := [((1 : ℚ), (1 : ℚ)), (3, 4)] }
        shown := Frame.captured 1
        events := [Event.imshow (Frame.captured 1)] } :=
  tracking_branch_is_noop detOne mdlConst
    { have_face := true, current_landmarks := [((1 : ℚ), (1 : ℚ)), (3, 4)] }
    (Frame.captured 1) rfl

/-- C7: for any collection whose enclosing box is non-degenerate,
`scaleFactor` of the collection against itself is exactly `(1, 1)`. -/
theorem scaleFactor_self_one (pts : Landmarks) (r : RectQ)
    (hbox : get_enclosing_bbox (toRow pts) = some r)
    (hw : r.w ≠ 0) (hh : r.h ≠ 0) :
    scaleFactor pts pts = some (1, 1) := by
  unfold scaleFactor
  rw [hbox]
  change (if r.w = 0 ∨ r.h = 0 then (none : Option (ℚ × ℚ))
          else some (r.w / r.w, r.h / r.h)) = some (1, 1)
  rw [if_neg (by push_neg; exact ⟨hw, hh⟩)]
  rw [div_self hw, div_self hh]

/-- Evaluation of the enclosing box at the collection `[(0,0), (2,3)]`,
used to discharge the hypotheses of the C7 witness. -/
lemma bbox_eval_0023 :
    get_enclosing_bbox (toRow [((0 : ℚ), (0 : ℚ)), (2, 3)]) = some ⟨0, 0, 2, 3⟩ := by
  rw [get_enclosing_bbox_toRow_cons]
  simp only [List.map_cons, List.map_nil, List.foldl_cons, List.foldl_nil,
    Option.some.injEq, RectQ.mk.injEq]
  norm_num

/-- Witness for C7 at the collection `[(0, 0), (2, 3)]`, whose box is
`{x:0, y:0, w:2, h:3}`. -/
theorem scaleFactor_self_one_witness :
    get_enclosing_bbox (toRow [((0 : ℚ), (0 : ℚ)), (2, 3)]) = some ⟨0, 0, 2, 3⟩ ∧
    ((⟨0, 0, 2, 3⟩ : RectQ).w ≠ 0) ∧ ((⟨0, 0, 2, 3⟩ : RectQ).h ≠ 0) ∧
    scaleFactor [((0 : ℚ), (0 : ℚ)), (2, 3)] [((0 : ℚ), (0 : ℚ)), (2, 3)] =
      some (1, 1) :=
  ⟨bbox_eval_0023, by norm_num, by norm_num,
   scaleFactor_self_one [((0 : ℚ), (0 : ℚ)), (2, 3)] ⟨0, 0, 2, 3⟩
     bbox_eval_0023 (by norm_num) (by norm_num)⟩

/-- C8 counterexample: on a concrete frame with one detected face, the
detection rectangle is drawn in place before the landmark model runs:
the model receives the drawn frame (`withRect`), which differs from the
captured frame, and never receives the captured frame itself. -/
theorem overlay_not_on_copy_counterexample :
    (processFrame detOne mdlConst initState (Frame.captured 0)).events =
      [Event.detectMultiScale (Frame.captured 0),
       Event.rectangle ⟨100, 50, 80, 80⟩,
       Event.detect (Frame.withRect (Frame.captured 0) ⟨100, 50, 80, 80⟩)
         ⟨100, 50, 80, 80⟩,
       Event.draw_landmarks [(1, 1), (3, 4)],
       Event.imshow (Frame.withLandmarks
         (Frame.withRect (Frame.captured 0) ⟨100, 50, 80, 80⟩) [(1, 1), (3, 4)])] ∧
    Frame.withRect (Frame.captured 0) ⟨100, 50, 80, 80⟩ ≠ Frame.captured 0 ∧
    Event.detect (Frame.captured 0) ⟨100, 50, 80, 80⟩ ∉
      (processFrame detOne mdlConst initState (Frame.captured 0)).events := by
  refine ⟨rfl, by decide, by decide⟩

/-- C8 (amended): drawing happens in place on the captured frame: the
face detector receives the raw captured frame, but the landmark model
receives the frame with the detection rectangle already drawn on it,
which is a different frame value; no copy is made. -/
theorem cold_start_draws_in_place (det : Frame → List RectI)
    (mdl : Frame → RectI → Landmarks) (s : TrackState) (image : Frame)
    (r : RectI) (rest : List RectI)
    (hface : s.have_face = false) (hdet : det image = r :: rest) :
    Event.detectMultiScale image ∈ (processFrame det mdl s image).events ∧
    Event.detect (Frame.withRect image r) r ∈ (processFrame det mdl s image).events ∧
    Frame.withRect image r ≠ image ∧
    (processFrame det mdl s image).shown =
      Frame.withLandmarks (Frame.withRect image r)
        (mdl (Frame.withRect image r) r) := by
  rw [processFrame_cold det mdl s image r rest hface hdet]
  exact ⟨by simp, by simp, withRect_ne image r, rfl⟩

/-- Witness for the amended C8. -/
theorem cold_start_draws_in_place_witness :
    Event.detectMultiScale (Frame.captured 2) ∈
      (processFrame detOne mdlConst initState (Frame.captured 2)).events ∧
    Event.detect (Frame.withRect (Frame.captured 2) ⟨100, 50, 80, 80⟩)
        ⟨100, 50, 80, 80⟩ ∈
      (processFrame detOne mdlConst initState (Frame.captured 2)).events ∧
    Frame.withRect (Frame.captured 2) ⟨100, 50, 80, 80⟩ ≠ Frame.captured 2 ∧
    (processFrame detOne mdlConst initState (Frame.captured 2)).shown =
      Frame.withLandmarks (Frame.withRect (Frame.captured 2) ⟨100, 50, 80, 80⟩)
        (mdlConst (Frame.withRect (Frame.captured 2) ⟨100, 50, 80, 80⟩)
          ⟨100, 50, 80, 80⟩) :=
  cold_start_draws_in_place detOne mdlConst initState (Frame.captured 2)
    ⟨100, 50, 80, 80⟩ [] rfl rfl

/-- C9: the default `int` instantiation truncates each computed
component toward zero; on the collection `[(1/2, 1/2)]` the exact box
`{1/2, 1/2, 0, 0}` contains the point while the truncated box
`{0, 0, 0, 0}` excludes it; containment holds for the exact
(floating-point) instantiation. -/
theorem int_bbox_truncation :
    (∀ l : List ℚ, get_enclosing_bbox_int l =
      (get_enclosing_bbox l).map
        (fun r => ⟨cppIntCast r.x, cppIntCast r.y, cppIntCast r.w, cppIntCast r.h⟩)) ∧
    cppIntCast ((7 : ℚ) / 2) = 3 ∧
    cppIntCast (-(7 : ℚ) / 2) = -3 ∧
    get_enclosing_bbox (toRow [((1 : ℚ) / 2, (1 : ℚ) / 2)]) =
      some ⟨1 / 2, 1 / 2, 0, 0⟩ ∧
    rectQContains ⟨1 / 2, 1 / 2, 0, 0⟩ (1 / 2, 1 / 2) ∧
    get_enclosing_bbox_int (toRow [((1 : ℚ) / 2, (1 : ℚ) / 2)]) =
      some ⟨0, 0, 0, 0⟩ ∧
    ¬ rectIContainsQ ⟨0, 0, 0, 0⟩ (1 / 2, 1 / 2) := by
  have hq : get_enclosing_bbox (toRow [((1 : ℚ) / 2, (1 : ℚ) / 2)]) =
      some ⟨1 / 2, 1 / 2, 0, 0⟩ := by
    rw [get_enclosing_bbox_toRow_cons]
    simp only [List.map_nil, List.foldl_nil, Option.some.injEq, RectQ.mk.injEq]
    norm_num
  refine ⟨fun _ => rfl, ?_, ?_, hq, ?_, ?_, ?_⟩
  · rw [cppIntCast, if_pos (by norm_num)]
    norm_num
  · rw [cppIntCast, if_neg (by norm_num), show -(7 : ℚ) / 2 = -(7 / 2) by ring,
        Int.ceil_neg]
    norm_num
  · rw [rectQContains]
    norm_num
  · unfold get_enclosing_bbox_int
    rw [hq, Option.map_some']
    simp only [Option.some.injEq, RectI.mk.injEq]
    refine ⟨?_, ?_, ?_, ?_⟩ <;>
      rw [cppIntCast, if_pos (by norm_num)] <;> norm_num
  · rw [rectIContainsQ]
    push_neg
    intro h1
    norm_num

/-- C10: a command-line parsing error prints the message and returns
`EXIT_SUCCESS`, the same exit code as a run that completes normally, so
the two are indistinguishable by exit status. -/
theorem parse_error_exits_success (env : MainEnv) (msg : String)
    (h : env.parse = ParseOutcome.perror msg) :
    (mainResult env).1 = EXIT_SUCCESS ∧
    ("Error while parsing command-line arguments: " ++ msg) ∈ (mainResult env).2 ∧
    ∀ env2 : MainEnv, env2.parse = ParseOutcome.ok → env2.modelLoadOk = true →
      env2.cascadeLoadOk = true → env2.capOpened = true →
      (mainResult env2).1 = (mainResult env).1 := by
  unfold mainResult
  rw [h]
  refine ⟨rfl, by simp, ?_⟩
  intro env2 h2 hm hc hcap
  rw [h2, hm, hc, hcap]
  rfl

/-- Witness for C10 at a concrete failing command line (required option
missing). -/
theorem parse_error_exits_success_witness :
    (mainResult ⟨ParseOutcome.perror "the option is required but missing",
       true, true, true⟩).1 = EXIT_SUCCESS ∧
    ("Error while parsing command-line arguments: " ++
       "the option is required but missing") ∈
      (mainResult ⟨ParseOutcome.perror "the option is required but missing",
         true, true, true⟩).2 ∧
    (∀ env2 : MainEnv, env2.parse = ParseOutcome.ok → env2.modelLoadOk = true →
      env2.cascadeLoadOk = true → env2.capOpened = true →
      (mainResult env2).1 =
        (mainResult ⟨ParseOutcome.perror "the option is required but missing",
           true, true, true⟩).1) :=
  parse_error_exits_success
    ⟨ParseOutcome.perror "the option is required but missing", true, true, true⟩
    "the option is required but missing" rfl

end RcrTrack
